import Mathlib

/-!
Verification development for the media-player repository
(src/server.ts and src/api/server.ts): a shallow embedding of the
Server / ApiServer start-stop lifecycle and of the safe request-handler
wrapper, with theorems settling the specification claims.

Modelling conventions:
* Promises are modelled by `Except Err Bool × State`: the first component
  is the settled outcome (resolve / reject), the second the state of the
  mutated objects after the call.
* The outcomes of the underlying asynchronous operations (the TCP listen
  and close of the bundled HTTP library) are inputs to the model, since
  they depend on the outside world: `ListenOutcome` and `StopEnv`.
* Object identity of the mutable TypeScript objects is modelled by an
  explicit `id` field that no operation changes: two states with the same
  `id` model the same object at different times.
-/

/-- Errors thrown / rejected with, abstracted to a numeric code. -/
abbrev Err := Nat

/-- Outcome of the underlying close operation inside `ApiServer.stop`:
either `close` completes and its callback runs, or the call throws
synchronously. -/
inductive StopEnv where
  | ok
  | throws (e : Err)
deriving DecidableEq

/-- Outcome of `Express()` / `app.listen(8888, cb)` inside
`ApiServer.start`: the listen callback runs without error, the callback
receives an error, the listener emits an `error` event, or the setup
throws synchronously. -/
inductive ListenOutcome where
  | ok (handle : Nat)
  | callbackErr (e : Err)
  | errorEvent (e : Err)
  | throws (e : Err)
deriving DecidableEq

/-- `ApiServer` (src/api/server.ts): wraps at most one HTTP listener.
`_httpServer` stores the listener handle (`none` models
`undefined`/`null`); `_SERVER` is the informational back-reference to the
owning `Server` (never used for mutation, modelled as `Unit`); `id`
models the object's identity. -/
structure ApiServer where
  id : Nat
  _SERVER : Unit
  _httpServer : Option Nat
deriving DecidableEq

/-- `new ApiServer(server)`: stores the back-reference, leaves
`_httpServer` unset. `freshId` is the identity of the new object. -/
def ApiServer.mkNew (server : Unit) (freshId : Nat) : ApiServer :=
  { id := freshId, _SERVER := server, _httpServer := none }

/-- `ApiServer.isRunning`: `!!this._httpServer`. -/
def ApiServer.isRunning (s : ApiServer) : Bool :=
  s._httpServer.isSome

/-- `ApiServer.server` accessor. -/
def ApiServer.server (s : ApiServer) : Unit :=
  s._SERVER

/-- `ApiServer.start`: resolves `false` if already running; otherwise
creates the app, listens on port 8888, stores the handle and resolves
`true` on success, rejects on a callback error, an `error` event, or a
synchronous throw. -/
def ApiServer.start (s : ApiServer) (env : ListenOutcome) :
    Except Err Bool × ApiServer :=
  if s.isRunning then (Except.ok false, s)
  else
    match env with
    | ListenOutcome.ok h => (Except.ok true, { s with _httpServer := some h })
    | ListenOutcome.callbackErr e => (Except.error e, s)
    | ListenOutcome.errorEvent e => (Except.error e, s)
    | ListenOutcome.throws e => (Except.error e, s)

/-- `ApiServer.stop`: resolves `false` if no listener handle is stored;
otherwise closes the listener, clears the handle and resolves `true`
once the close completes; a synchronous throw from `close` rejects and
leaves the handle stored. -/
def ApiServer.stop (s : ApiServer) (env : StopEnv) :
    Except Err Bool × ApiServer :=
  match s._httpServer with
  | none => (Except.ok false, s)
  | some _ =>
    match env with
    | StopEnv.ok => (Except.ok true, { s with _httpServer := none })
    | StopEnv.throws e => (Except.error e, s)

/-- `Server` (src/server.ts): owns at most one `ApiServer`.
`_api : Option ApiServer` models the field that starts out `undefined`. -/
structure Server where
  _api : Option ApiServer
  _isRunning : Bool
deriving DecidableEq

/-- A freshly constructed `Server`: `_api` unset, `_isRunning = false`. -/
def Server.new : Server :=
  { _api := none, _isRunning := false }

/-- `Server.api` accessor. -/
def Server.api (s : Server) : Option ApiServer :=
  s._api

/-- `Server.isRunning` accessor. -/
def Server.isRunning (s : Server) : Bool :=
  s._isRunning

/-- `Server.disposeOldApi(throwOnError)`: stops the current `_api` if
present; resolves `true` on success (also when there is no api); on a
stop failure rethrows when `throwOnError`, otherwise resolves `false`.
The `_api` reference itself is never reassigned; the referenced
`ApiServer` object is mutated in place by its `stop`. -/
def Server.disposeOldApi (s : Server) (throwOnError : Bool) (env : StopEnv) :
    Except Err Bool × Server :=
  match s._api with
  | none => (Except.ok true, s)
  | some oldApi =>
    match ApiServer.stop oldApi env with
    | (Except.ok _, api2) => (Except.ok true, { s with _api := some api2 })
    | (Except.error e, api2) =>
      if throwOnError then (Except.error e, { s with _api := some api2 })
      else (Except.ok false, { s with _api := some api2 })

/-- Environment of one `Server.start` call: the close outcome for
disposing the previous api, the identity of the newly constructed
`ApiServer`, the listen outcome for its `start`, and the close outcome
for the best-effort disposal on the error path. -/
structure StartEnv where
  disposeEnv : StopEnv
  freshId : Nat
  apiStart : ListenOutcome
  cleanupEnv : StopEnv
deriving DecidableEq

/-- `Server.start`: resolves `false` if already running. Otherwise
disposes the old api (rethrowing its failure), constructs a fresh
`ApiServer`, starts it, and on success stores it in `_api`, sets
`_isRunning = true` and resolves `true`. On any failure it runs a
best-effort `disposeOldApi(false)` (errors swallowed), sets
`_isRunning = false` and rejects with the original error. -/
def Server.start (s : Server) (env : StartEnv) : Except Err Bool × Server :=
  if s.isRunning then (Except.ok false, s)
  else
    match s.disposeOldApi true env.disposeEnv with
    | (Except.ok _, s1) =>
      match (ApiServer.mkNew () env.freshId).start env.apiStart with
      | (Except.ok _, api2) =>
        (Except.ok true, { s1 with _api := some api2, _isRunning := true })
      | (Except.error e, _) =>
        let s2 := (s1.disposeOldApi false env.cleanupEnv).2
        (Except.error e, { s2 with _isRunning := false })
    | (Except.error e, s1) =>
      let s2 := (s1.disposeOldApi false env.cleanupEnv).2
      (Except.error e, { s2 with _isRunning := false })

/-- `Server.stop`: resolves `false` if not running. Otherwise disposes
the current api (rethrowing), sets `_isRunning = false` and resolves
`true`; on failure sets `_isRunning = true` back and rejects. -/
def Server.stop (s : Server) (env : StopEnv) : Except Err Bool × Server :=
  if !s.isRunning then (Except.ok false, s)
  else
    match s.disposeOldApi true env with
    | (Except.ok _, s1) => (Except.ok true, { s1 with _isRunning := false })
    | (Except.error e, s1) => (Except.error e, { s1 with _isRunning := true })

/-- One lifecycle call on a `Server`, with its environment. -/
inductive Op where
  | start (env : StartEnv)
  | stop (env : StopEnv)
deriving DecidableEq

/-- State of the `Server` after one lifecycle call completes. -/
def Server.step (s : Server) : Op → Server
  | Op.start env => (s.start env).2
  | Op.stop env => (s.stop env).2

/-- State of the `Server` after a sequence of completed lifecycle calls. -/
def Server.run (s : Server) : List Op → Server
  | [] => s
  | op :: rest => (s.step op).run rest

/-- The invariant of claim C4: a running `Server` holds a present api. -/
def ServerInv (s : Server) : Prop :=
  s.isRunning = true → (s.api).isSome = true

instance (s : Server) : Decidable (ServerInv s) := by
  unfold ServerInv; infer_instance

/-!  The HTTP side (src/api/server.ts): JSON serialization as performed
by `JSON.stringify`, the response object, `sendJsonResult`, the safe
request-handler wrapper and the single registered route. -/

mutual

/-- JavaScript values appearing in the serialized envelopes.
`undef` models `undefined`, which `JSON.stringify` drops from objects. -/
inductive JsValue where
  | undef
  | null
  | num (n : Nat)
  | str (s : String)
  | obj (fields : JsMembers)

/-- Field list of a JavaScript object literal, in insertion order. -/
inductive JsMembers where
  | nil
  | cons (key : String) (value : JsValue) (rest : JsMembers)

end

/-- Escaping of one character inside a JSON string literal, as
`JSON.stringify` performs it. -/
def escapeJsonChar (c : Char) : String :=
  if c = '"' then "\\\""
  else if c = '\\' then "\\\\"
  else if c = '\n' then "\\n"
  else if c = '\r' then "\\r"
  else if c = '\t' then "\\t"
  else if c = '\x08' then "\\b"
  else if c = '\x0c' then "\\f"
  else String.singleton c

/-- Escaping of a whole JSON string literal body. -/
def escapeJsonString (s : String) : String :=
  String.join (s.data.map escapeJsonChar)

mutual

/-- `JSON.stringify` on a value: `undefined` at top level serializes to
nothing (`none`), `null` to `"null"`, and objects drop members whose
value is `undefined`. -/
def jsonStringify : JsValue → Option String
  | JsValue.undef => none
  | JsValue.null => some "null"
  | JsValue.num n => some (toString n)
  | JsValue.str s => some ("\"" ++ escapeJsonString s ++ "\"")
  | JsValue.obj fs =>
    some ("\x7b" ++ String.intercalate "," (serializeMembers fs) ++ "\x7d")

/-- The serialized `"key":value` pieces of an object, skipping members
whose value is `undefined`. -/
def serializeMembers : JsMembers → List String
  | JsMembers.nil => []
  | JsMembers.cons k v rest =>
    match jsonStringify v with
    | none => serializeMembers rest
    | some sv =>
      ("\"" ++ escapeJsonString k ++ "\":" ++ sv) :: serializeMembers rest

end

/-- The `this` value a JavaScript function can be invoked with:
`undefined`, or a reference to some object. -/
inductive JsThis where
  | undef
  | obj (n : Nat)
deriving DecidableEq

/-- The Express request context, restricted to what the code reads:
`req.connection.remoteAddress` and `req.connection.remotePort`.
`nowUtcIso` models the value of `Moment.utc().toISOString()` at the
moment the request is handled. -/
structure ApiRequest where
  remoteAddress : String
  remotePort : Nat
  nowUtcIso : String
deriving DecidableEq

/-- The Express response context, restricted to what the code writes:
the status code (`none` while only the default applies), the content
type set by `contentType`, and the body passed to `send`. -/
structure ApiResponse where
  statusCode : Option Nat
  contentTypeHeader : Option String
  body : Option String
deriving DecidableEq

/-- A response on which nothing has been sent yet. -/
def freshResponse : ApiResponse :=
  { statusCode := none, contentTypeHeader := none, body := none }

/-- `resp.contentType(ct)`. -/
def ApiResponse.contentType (resp : ApiResponse) (ct : String) : ApiResponse :=
  { resp with contentTypeHeader := some ct }

/-- `resp.send(buffer)`: stores the body and finalizes the status
(Express sends 200 when no status was set explicitly). -/
def ApiResponse.send (resp : ApiResponse) (b : String) : ApiResponse :=
  { resp with body := some b, statusCode := some (resp.statusCode.getD 200) }

/-- `resp.sendJsonResult(data, code, msg)` as attached by the safe
wrapper: sets the content type and sends the UTF-8 JSON serialization of
the envelope object `\x7b code: code, msg: msg, data: data \x7d`. In the
source `code` defaults to `0` and `msg` to `undefined`; callers that
omit them are modelled by passing `0` and `JsValue.undef`. -/
def ApiResponse.sendJsonResult (resp : ApiResponse) (data : JsValue)
    (code : Nat) (msg : JsValue) : ApiResponse :=
  let envelope := JsValue.obj
    (JsMembers.cons "code" (JsValue.num code)
      (JsMembers.cons "msg" msg
        (JsMembers.cons "data" data JsMembers.nil)))
  (resp.contentType "application/json; charset=utf-8").send
    ((jsonStringify envelope).getD "undefined")

/-- A synchronous request handler as the wrapper sees it: it receives
its `this`-binding, the request and the response object, and returns the
response object's final state together with the exception it threw, if
any (mutations made before the throw persist). -/
abbrev SyncHandler :=
  JsThis → ApiRequest → ApiResponse → ApiResponse × Option Err

/-- The behavior of `resp.sendStatus`: a response method that may itself
throw. The wrapper is parametric in it because claim C6 quantifies over
failures of the send itself. -/
abbrev SendStatusImpl := Nat → ApiResponse → ApiResponse × Option Err

/-- The status message text Express sends as the body of a
`sendStatus` response. -/
def statusMessage (code : Nat) : String :=
  if code = 500 then "Internal Server Error" else toString code

/-- The ordinary, non-throwing `resp.sendStatus(code)`: sets the status
code and sends the status message. -/
def sendStatusM : SendStatusImpl :=
  fun code resp =>
    ({ resp with statusCode := some code,
                 body := some (statusMessage code) }, none)

/-- `ApiServer.getRequestHandlerSafe(handler, thisArgs?)`.
`self` is the `ApiServer` the method is called on; `argCount` is
`arguments.length` at the call site: when it is below 2 the
`thisArgs` parameter was omitted and defaults to `self`. With a handler,
the wrapper attaches `sendJsonResult`, invokes the handler with the
resolved `this`-binding, and on a synchronous throw tries
`sendStatus(500)`, discarding any error of that attempt; without a
handler it just tries `sendStatus(500)`. The wrapper itself never
throws, hence its total codomain. -/
def getRequestHandlerSafe (sendStatus : SendStatusImpl) (self : JsThis)
    (handler : Option SyncHandler) (argCount : Nat) (thisArgs : JsThis) :
    ApiRequest → ApiResponse → ApiResponse :=
  let thisArgs2 := if argCount < 2 then self else thisArgs
  match handler with
  | some h => fun req resp =>
    match h thisArgs2 req resp with
    | (resp2, none) => resp2
    | (resp2, some _) => (sendStatus 500 resp2).1
  | none => fun _ resp => (sendStatus 500 resp).1

/-- The inline handler registered for `GET /` in
`ApiServer.initializeApp`: replies with
`sendJsonResult(\x7b now, you \x7d)`, leaving `code` and `msg` at their
defaults, and never throws. -/
def rootRouteHandler : SyncHandler :=
  fun _ req resp =>
    (resp.sendJsonResult
      (JsValue.obj
        (JsMembers.cons "now" (JsValue.str req.nowUtcIso)
          (JsMembers.cons "you"
            (JsValue.str
              (req.remoteAddress ++ ":" ++ toString req.remotePort))
            JsMembers.nil)))
      0 JsValue.undef, none)

/-- `ApiServer.initializeApp`: registers exactly one route, `GET /`,
wrapped by `getRequestHandlerSafe(handler)` — called with ONE argument,
so `thisArgs` defaults to the `ApiServer` itself (`self`). -/
def ApiServer.initializeApp (self : JsThis) :
    List (String × (ApiRequest → ApiResponse → ApiResponse)) :=
  [("/", getRequestHandlerSafe sendStatusM self (some rootRouteHandler) 1
    JsThis.undef)]

/-- The handler serving `GET /`, as registered by `initializeApp`. -/
def registeredRootHandler (self : JsThis) :
    ApiRequest → ApiResponse → ApiResponse :=
  getRequestHandlerSafe sendStatusM self (some rootRouteHandler) 1
    JsThis.undef

/-- A sample request used by the concrete counterexample and witnesses. -/
def sampleReq : ApiRequest :=
  { remoteAddress := "127.0.0.1", remotePort := 12345,
    nowUtcIso := "2026-10-12T00:00:00.000Z" }

/-- The envelope the root route actually serializes: `code` and `data`,
with no `msg` member. -/
def rootEnvelopeNoMsg (req : ApiRequest) : JsValue :=
  JsValue.obj
    (JsMembers.cons "code" (JsValue.num 0)
      (JsMembers.cons "data"
        (JsValue.obj
          (JsMembers.cons "now" (JsValue.str req.nowUtcIso)
            (JsMembers.cons "you"
              (JsValue.str
                (req.remoteAddress ++ ":" ++ toString req.remotePort))
              JsMembers.nil)))
        JsMembers.nil))

/-- A start environment in which everything succeeds. -/
def startEnvOk : StartEnv :=
  { disposeEnv := StopEnv.ok, freshId := 1,
    apiStart := ListenOutcome.ok 42, cleanupEnv := StopEnv.ok }

/-- A start environment in which the listen setup throws. -/
def startEnvFail : StartEnv :=
  { disposeEnv := StopEnv.ok, freshId := 2,
    apiStart := ListenOutcome.throws 7, cleanupEnv := StopEnv.ok }

/-- An `ApiServer` holding a listener handle. -/
def boundApi : ApiServer := { id := 0, _SERVER := (), _httpServer := some 3 }

/-- A `Server` that is running and owns `boundApi`. -/
def runningServer : Server := { _api := some boundApi, _isRunning := true }

/-- A handler that throws unconditionally. -/
def throwingHandler : SyncHandler := fun _ _ resp => (resp, some 4)

/-- A response-valued observation of a handler's `this`-binding, used to
state the defaulting claim concretely. -/
def recordResp : JsThis → ApiResponse :=
  fun t =>
    { statusCode := some (match t with
        | JsThis.undef => 0
        | JsThis.obj n => n + 1),
      contentTypeHeader := none, body := none }

/-!  Helper lemmas shared by the claim theorems. -/

/-- `ApiServer.stop` never changes the object's identity. -/
theorem apiStop_id (a : ApiServer) (env : StopEnv) :
    ((a.stop env).2).id = a.id := by
  unfold ApiServer.stop
  rcases a._httpServer with _ | h
  · rfl
  · cases env <;> rfl

/-- A resolving `ApiServer.stop` always clears the listener handle. -/
theorem apiStop_ok_handle (a : ApiServer) (env : StopEnv) (b : Bool)
    (a2 : ApiServer) (h : a.stop env = (Except.ok b, a2)) :
    a2._httpServer = none := by
  unfold ApiServer.stop at h
  rcases hh : a._httpServer with _ | k <;> rw [hh] at h
  · injection h with h1 h2
    rw [← h2]
    exact hh
  · cases env
    · injection h with h1 h2
      rw [← h2]
    · injection h with h1 h2
      exact absurd h1 (by simp)

/-- An `ApiServer.stop` rejects exactly when a listener handle is stored
and the close throws. -/
theorem apiStop_error (a : ApiServer) (env : StopEnv) (e : Err)
    (a2 : ApiServer) (h : a.stop env = (Except.error e, a2)) :
    a._httpServer.isSome = true ∧ env = StopEnv.throws e ∧ a2 = a := by
  unfold ApiServer.stop at h
  rcases hh : a._httpServer with _ | k <;> rw [hh] at h
  · injection h with h1 h2
    exact absurd h1 (by simp)
  · cases env
    · injection h with h1 h2
      exact absurd h1 (by simp)
    · rename_i e2
      injection h with h1 h2
      injection h1 with h3
      subst h3
      exact ⟨rfl, rfl, h2.symm⟩

/-- `Server.disposeOldApi` never reassigns the `_api` reference: the
identity of the stored api, if any, is unchanged. -/
theorem disposeOldApi_api_id (s : Server) (t : Bool) (env : StopEnv) :
    ((s.disposeOldApi t env).2)._api.map ApiServer.id
      = s._api.map ApiServer.id := by
  unfold Server.disposeOldApi
  split
  · rfl
  · rename_i oldApi heq
    rcases hs : oldApi.stop env with ⟨r, a2⟩
    have hid : a2.id = oldApi.id := by
      have h2 := apiStop_id oldApi env
      rw [hs] at h2
      exact h2
    cases r with
    | ok b => simp [heq, hid]
    | error e => cases t <;> simp [heq, hid]

/-- `Server.disposeOldApi` never touches `_isRunning`. -/
theorem disposeOldApi_isRunning (s : Server) (t : Bool) (env : StopEnv) :
    ((s.disposeOldApi t env).2)._isRunning = s._isRunning := by
  unfold Server.disposeOldApi
  split
  · rfl
  · rename_i oldApi heq
    rcases hs : oldApi.stop env with ⟨r, a2⟩
    cases r with
    | ok b => rfl
    | error e => cases t <;> rfl

/-- When disposal with `throwOnError` resolves on a server holding an
api, the stored api keeps its identity and ends with no listener. -/
theorem disposeOldApi_ok (s : Server) (env : StopEnv) (a : ApiServer)
    (hapi : s._api = some a) (b : Bool) (s1 : Server)
    (hd : s.disposeOldApi true env = (Except.ok b, s1)) :
    ∃ a2, s1._api = some a2 ∧ a2.id = a.id ∧ a2._httpServer = none := by
  unfold Server.disposeOldApi at hd
  rw [hapi] at hd
  dsimp only at hd
  rcases hs : a.stop env with ⟨r, a2⟩
  rw [hs] at hd
  have hid : a2.id = a.id := by
    have h2 := apiStop_id a env
    rw [hs] at h2
    exact h2
  cases r with
  | ok b2 =>
    dsimp only at hd
    injection hd with h1 h2
    rw [← h2]
    exact ⟨a2, rfl, hid, apiStop_ok_handle a env b2 a2 hs⟩
  | error e =>
    dsimp only at hd
    rw [if_pos rfl] at hd
    injection hd with h1 h2
    exact absurd h1 (by simp)

/-- `Server.start` on an already-running server is a no-op resolving
`false`. -/
theorem start_when_running (s : Server) (h : s.isRunning = true)
    (env : StartEnv) : s.start env = (Except.ok false, s) := by
  unfold Server.start
  rw [h]
  rfl

/-- Characterization of `Server.start` on a not-running server, by the
outcome of the old-api disposal and of the fresh `ApiServer.start`. -/
theorem start_not_running_eq (s : Server) (env : StartEnv)
    (hnot : s.isRunning = false) :
    s.start env =
      match s.disposeOldApi true env.disposeEnv with
      | (Except.ok _, s1) =>
        match env.apiStart with
        | ListenOutcome.ok h =>
          (Except.ok true,
            { s1 with
              _api := some { id := env.freshId, _SERVER := (),
                             _httpServer := some h },
              _isRunning := true })
        | ListenOutcome.callbackErr e =>
          (Except.error e,
            { (s1.disposeOldApi false env.cleanupEnv).2 with
              _isRunning := false })
        | ListenOutcome.errorEvent e =>
          (Except.error e,
            { (s1.disposeOldApi false env.cleanupEnv).2 with
              _isRunning := false })
        | ListenOutcome.throws e =>
          (Except.error e,
            { (s1.disposeOldApi false env.cleanupEnv).2 with
              _isRunning := false })
      | (Except.error e, s1) =>
        (Except.error e,
          { (s1.disposeOldApi false env.cleanupEnv).2 with
            _isRunning := false }) := by
  unfold Server.start
  rw [hnot]
  rcases hd : s.disposeOldApi true env.disposeEnv with ⟨r, s1⟩
  cases r with
  | ok b => cases ha : env.apiStart <;> rfl
  | error e => rfl

/-- A failing `Server.start` always leaves `isRunning = false`. -/
theorem start_error_isRunning (s : Server) (env : StartEnv) (e : Err)
    (hfail : (s.start env).1 = Except.error e) :
    ((s.start env).2).isRunning = false := by
  cases hr : s.isRunning with
  | true =>
    rw [start_when_running s hr env] at hfail
    simp at hfail
  | false =>
    rw [start_not_running_eq s env hr] at hfail ⊢
    rcases hd : s.disposeOldApi true env.disposeEnv with ⟨r, s1⟩
    rw [hd] at hfail
    cases r with
    | error e2 => rfl
    | ok b =>
      cases ha : env.apiStart <;> rw [ha] at hfail
      · simp at hfail
      · rfl
      · rfl
      · rfl

/-- The error a failing `Server.start` rejects with is the one raised by
the old-api disposal or by the fresh `ApiServer.start`. -/
theorem start_error_origin (s : Server) (env : StartEnv) (e : Err)
    (hnot : s.isRunning = false)
    (hfail : (s.start env).1 = Except.error e) :
    (s.disposeOldApi true env.disposeEnv).1 = Except.error e ∨
      ((ApiServer.mkNew () env.freshId).start env.apiStart).1
        = Except.error e := by
  rw [start_not_running_eq s env hnot] at hfail
  rcases hd : s.disposeOldApi true env.disposeEnv with ⟨r, s1⟩
  rw [hd] at hfail
  cases r with
  | error e2 =>
    left
    simp at hfail
    rw [hfail]
  | ok b =>
    right
    cases ha : env.apiStart <;> rw [ha] at hfail
    · simp at hfail
    · simp at hfail
      subst hfail
      rfl
    · simp at hfail
      subst hfail
      rfl
    · simp at hfail
      subst hfail
      rfl

/-- The settled outcome of `Server.start` does not depend on the outcome
of the best-effort cleanup disposal: its errors are swallowed. -/
theorem start_cleanup_outcome_independent (s : Server) (env : StartEnv)
    (c : StopEnv) :
    (s.start { env with cleanupEnv := c }).1 = (s.start env).1 := by
  cases hr : s.isRunning with
  | true => rw [start_when_running s hr _, start_when_running s hr env]
  | false =>
    rw [start_not_running_eq s _ hr, start_not_running_eq s env hr]
    dsimp only
    rcases hd : s.disposeOldApi true env.disposeEnv with ⟨r, s1⟩
    cases r with
    | error e => rfl
    | ok b => cases ha : env.apiStart <;> rfl

/-- A failing `Server.disposeOldApi` implies an api is stored after (and
hence before) the call. -/
theorem disposeOldApi_error_api (s : Server) (t : Bool) (env : StopEnv)
    (e : Err) (s1 : Server)
    (hd : s.disposeOldApi t env = (Except.error e, s1)) :
    s1._api.isSome = true := by
  unfold Server.disposeOldApi at hd
  rcases ha : s._api with _ | a <;> rw [ha] at hd
  · injection hd with h1 h2
    exact absurd h1 (by simp)
  · dsimp only at hd
    rcases hs : a.stop env with ⟨r, a2⟩
    rw [hs] at hd
    cases r with
    | ok b =>
      injection hd with h1 h2
      exact absurd h1 (by simp)
    | error e2 =>
      dsimp only at hd
      cases t
      · rw [if_neg (by simp)] at hd
        injection hd with h1 h2
        exact absurd h1 (by simp)
      · rw [if_pos rfl] at hd
        injection hd with h1 h2
        rw [← h2]
        rfl

/-- `Server.stop` on a running server, characterized by the outcome of
the disposal. -/
theorem stop_running_eq (s : Server) (env : StopEnv)
    (hr : s.isRunning = true) :
    s.stop env =
      match s.disposeOldApi true env with
      | (Except.ok _, s1) => (Except.ok true, { s1 with _isRunning := false })
      | (Except.error e, s1) =>
        (Except.error e, { s1 with _isRunning := true }) := by
  unfold Server.stop
  rw [hr]
  rfl

/-- `Server.stop` on a not-running server is a no-op resolving `false`. -/
theorem stop_not_running_eq (s : Server) (env : StopEnv)
    (hr : s.isRunning = false) : s.stop env = (Except.ok false, s) := by
  unfold Server.stop
  rw [hr]
  rfl

/-- Every lifecycle call preserves the running-implies-api-present
invariant. -/
theorem serverInv_step (s : Server) (op : Op) (h : ServerInv s) :
    ServerInv (s.step op) := by
  cases op with
  | start env =>
    cases hr : s.isRunning with
    | true =>
      simp only [Server.step]
      rw [start_when_running s hr env]
      exact h
    | false =>
      simp only [Server.step]
      rw [start_not_running_eq s env hr]
      rcases hd : s.disposeOldApi true env.disposeEnv with ⟨r, s1⟩
      cases r with
      | error e => intro hc; simp [Server.isRunning] at hc
      | ok b =>
        cases env.apiStart with
        | ok hh => intro _; rfl
        | callbackErr e => intro hc; simp [Server.isRunning] at hc
        | errorEvent e => intro hc; simp [Server.isRunning] at hc
        | throws e => intro hc; simp [Server.isRunning] at hc
  | stop env =>
    cases hr : s.isRunning with
    | false =>
      simp only [Server.step]
      rw [stop_not_running_eq s env hr]
      exact h
    | true =>
      simp only [Server.step]
      rw [stop_running_eq s env hr]
      rcases hd : s.disposeOldApi true env with ⟨r, s1⟩
      cases r with
      | ok b => intro hc; simp [Server.isRunning] at hc
      | error e =>
        intro _
        exact disposeOldApi_error_api s true env e s1 hd

/-- A sequence of lifecycle calls preserves the invariant. -/
theorem serverInv_run (ops : List Op) (s : Server) (h : ServerInv s) :
    ServerInv (s.run ops) := by
  induction ops generalizing s with
  | nil => exact h
  | cons op rest ih => exact ih (s.step op) (serverInv_step s op h)

/-!  Claim theorems. -/

/-- C7: `ApiServer.stop` resolves `false` when no listener handle is
stored; otherwise it resolves `true` exactly when the close completes,
and then the stored handle is cleared, so `isRunning` becomes `false`. -/
theorem apiServer_stop_spec (s : ApiServer) (env : StopEnv) :
    (s._httpServer = none → s.stop env = (Except.ok false, s)) ∧
    (s._httpServer.isSome = true →
      (((s.stop env).1 = Except.ok true) ↔ env = StopEnv.ok) ∧
      (env = StopEnv.ok →
        ((s.stop env).2)._httpServer = none ∧
        ((s.stop env).2).isRunning = false)) := by
  constructor
  · intro hn
    unfold ApiServer.stop
    rw [hn]
  · intro hsome
    unfold ApiServer.stop
    rcases hh : s._httpServer with _ | k
    · rw [hh] at hsome
      simp at hsome
    · cases env <;> simp [ApiServer.isRunning]

/-- Witness for C7 at concrete inputs: stop on a handle-less server is a
`false` no-op; stop on a bound server clears the handle. -/
theorem apiServer_stop_spec_witness :
    (ApiServer.mkNew () 0).stop StopEnv.ok
      = (Except.ok false, ApiServer.mkNew () 0) ∧
    ((boundApi.stop StopEnv.ok).2)._httpServer = none :=
  ⟨(apiServer_stop_spec (ApiServer.mkNew () 0) StopEnv.ok).1 rfl,
   (((apiServer_stop_spec boundApi StopEnv.ok).2 rfl).2 rfl).1⟩

/-- C2: when a running `Server`'s `stop` fails because disposing the
current `ApiServer` rejects, `isRunning` is rolled back to `true` and
the original error is the one delivered to the caller. -/
theorem server_stop_failure_rollback (s : Server) (env : StopEnv) (e : Err)
    (hrun : s.isRunning = true)
    (hfail : (s.disposeOldApi true env).1 = Except.error e) :
    (s.stop env).1 = Except.error e ∧
    ((s.stop env).2).isRunning = true := by
  rw [stop_running_eq s env hrun]
  rcases hd : s.disposeOldApi true env with ⟨r, s1⟩
  rw [hd] at hfail
  cases r with
  | ok b => simp at hfail
  | error e2 =>
    simp at hfail
    subst hfail
    exact ⟨rfl, rfl⟩

/-- Witness for C2: a running server whose api close throws error 9. -/
theorem server_stop_failure_rollback_witness :
    (runningServer.stop (StopEnv.throws 9)).1 = Except.error 9 ∧
    ((runningServer.stop (StopEnv.throws 9)).2).isRunning = true :=
  server_stop_failure_rollback runningServer (StopEnv.throws 9) 9 rfl rfl

/-- C9: a successful `Server.stop` sets `isRunning` to `false` but keeps
the `_api` reference: the accessor still returns the same (now stopped)
`ApiServer` instance. -/
theorem server_stop_success_keeps_api_instance (s : Server) (env : StopEnv)
    (a : ApiServer) (hrun : s.isRunning = true) (hapi : s.api = some a)
    (hok : (s.stop env).1 = Except.ok true) :
    ((s.stop env).2).isRunning = false ∧
    ∃ a2, ((s.stop env).2).api = some a2 ∧ a2.id = a.id ∧
      a2._httpServer = none := by
  rw [stop_running_eq s env hrun] at hok ⊢
  rcases hd : s.disposeOldApi true env with ⟨r, s1⟩
  rw [hd] at hok
  cases r with
  | error e => simp at hok
  | ok b =>
    obtain ⟨a2, h1, h2, h3⟩ := disposeOldApi_ok s env a hapi b s1 hd
    exact ⟨rfl, a2, h1, h2, h3⟩

/-- Witness for C9: stopping `runningServer` keeps the stored api. -/
theorem server_stop_success_keeps_api_instance_witness :
    ((runningServer.stop StopEnv.ok).2).isRunning = false ∧
    ∃ a2, ((runningServer.stop StopEnv.ok).2).api = some a2 ∧
      a2.id = boundApi.id ∧ a2._httpServer = none :=
  server_stop_success_keeps_api_instance runningServer StopEnv.ok boundApi
    rfl rfl rfl

/-- C4: the invariant "`isRunning = true` implies the `api` accessor
returns a present `ApiServer`" is preserved by every lifecycle call and
holds after every completed sequence of calls on a fresh `Server`. -/
theorem server_running_implies_api_present :
    (∀ (s : Server) (op : Op), ServerInv s → ServerInv (s.step op)) ∧
    (∀ ops : List Op, ServerInv (Server.new.run ops)) :=
  ⟨serverInv_step, fun ops => serverInv_run ops Server.new (by decide)⟩

/-- Witness for C4: the invariant after a concrete successful start, and
preservation at a concrete state. -/
theorem server_running_implies_api_present_witness :
    ServerInv (Server.new.step (Op.start startEnvOk)) ∧
    ServerInv (Server.new.run [Op.start startEnvOk, Op.stop StopEnv.ok]) :=
  ⟨server_running_implies_api_present.1 Server.new (Op.start startEnvOk)
      (by decide),
   server_running_implies_api_present.2 [Op.start startEnvOk,
      Op.stop StopEnv.ok]⟩

/-- C5: starting from a not-running `Server`, a `start` whose disposal
and listen both succeed resolves `true`, leaves `isRunning = true`, and
a second `start` without an intervening `stop` resolves `false` and
changes nothing (a no-op, not an error). -/
theorem server_start_idempotent (s : Server) (e1 e2 : StartEnv) (hn : Nat)
    (hnot : s.isRunning = false)
    (hd : (s.disposeOldApi true e1.disposeEnv).1 = Except.ok true)
    (ha : e1.apiStart = ListenOutcome.ok hn) :
    (s.start e1).1 = Except.ok true ∧
    ((s.start e1).2).isRunning = true ∧
    (((s.start e1).2).start e2).1 = Except.ok false ∧
    (((s.start e1).2).start e2).2 = (s.start e1).2 := by
  have hfst : (s.start e1).1 = Except.ok true ∧
      ((s.start e1).2).isRunning = true := by
    rw [start_not_running_eq s e1 hnot]
    rcases hdd : s.disposeOldApi true e1.disposeEnv with ⟨r, s1⟩
    rw [hdd] at hd
    cases r with
    | error e => simp at hd
    | ok b =>
      rw [ha]
      exact ⟨rfl, rfl⟩
  obtain ⟨h1, h2⟩ := hfst
  refine ⟨h1, h2, ?_, ?_⟩
  · rw [start_when_running _ h2 e2]
  · rw [start_when_running _ h2 e2]

/-- Witness for C5: two consecutive starts on a fresh server. -/
theorem server_start_idempotent_witness :
    (Server.new.start startEnvOk).1 = Except.ok true ∧
    ((Server.new.start startEnvOk).2).isRunning = true ∧
    (((Server.new.start startEnvOk).2).start startEnvOk).1
      = Except.ok false ∧
    (((Server.new.start startEnvOk).2).start startEnvOk).2
      = (Server.new.start startEnvOk).2 :=
  server_start_idempotent Server.new startEnvOk startEnvOk 42 rfl rfl rfl

/-- C3: when `start` on a not-running `Server` fails at any step, the
server ends not running, the rejected error originates from the old-api
disposal or from the fresh `ApiServer.start` (never from the cleanup),
and the outcome is the same whatever the best-effort cleanup does. -/
theorem server_start_failure_cleanup (s : Server) (env : StartEnv) (e : Err)
    (hnot : s.isRunning = false)
    (hfail : (s.start env).1 = Except.error e) :
    ((s.start env).2).isRunning = false ∧
    ((s.disposeOldApi true env.disposeEnv).1 = Except.error e ∨
      ((ApiServer.mkNew () env.freshId).start env.apiStart).1
        = Except.error e) ∧
    (∀ c : StopEnv,
      (s.start { env with cleanupEnv := c }).1 = Except.error e ∧
      ((s.start { env with cleanupEnv := c }).2).isRunning = false) := by
  refine ⟨start_error_isRunning s env e hfail,
    start_error_origin s env e hnot hfail, ?_⟩
  intro c
  have h1 : (s.start { env with cleanupEnv := c }).1 = Except.error e := by
    rw [start_cleanup_outcome_independent s env c]
    exact hfail
  exact ⟨h1, start_error_isRunning s _ e h1⟩

/-- Witness for C3: a fresh server whose listen throws error 7, with a
throwing cleanup environment substituted in. -/
theorem server_start_failure_cleanup_witness :
    (Server.new.start { startEnvFail with
        cleanupEnv := StopEnv.throws 3 }).1 = Except.error 7 ∧
    ((Server.new.start { startEnvFail with
        cleanupEnv := StopEnv.throws 3 }).2).isRunning = false :=
  (server_start_failure_cleanup Server.new startEnvFail 7 rfl rfl).2.2
    (StopEnv.throws 3)

/-- C8: a failing `start` never stores the newly constructed
`ApiServer`: the `_api` reference keeps its pre-call identity, and when
the fresh id differs from the stored one, no api with the fresh id is
reachable through the accessor. -/
theorem server_start_failure_preserves_api_ref (s : Server)
    (env : StartEnv) (e : Err) (hnot : s.isRunning = false)
    (hfail : (s.start env).1 = Except.error e)
    (hfresh : ∀ a, s.api = some a → a.id ≠ env.freshId) :
    ((s.start env).2).api.map ApiServer.id = s.api.map ApiServer.id ∧
    ∀ a2, ((s.start env).2).api = some a2 → a2.id ≠ env.freshId := by
  have hmap : ((s.start env).2)._api.map ApiServer.id
      = s._api.map ApiServer.id := by
    rw [start_not_running_eq s env hnot] at hfail ⊢
    rcases hd : s.disposeOldApi true env.disposeEnv with ⟨r, s1⟩
    rw [hd] at hfail
    have hs1 : s1._api.map ApiServer.id = s._api.map ApiServer.id := by
      have h2 := disposeOldApi_api_id s true env.disposeEnv
      rw [hd] at h2
      exact h2
    have hgen : ((s1.disposeOldApi false env.cleanupEnv).2)._api.map
        ApiServer.id = s._api.map ApiServer.id :=
      (disposeOldApi_api_id s1 false env.cleanupEnv).trans hs1
    cases r with
    | error e2 => exact hgen
    | ok b =>
      cases ha : env.apiStart <;> rw [ha] at hfail
      · simp at hfail
      · exact hgen
      · exact hgen
      · exact hgen
  refine ⟨hmap, ?_⟩
  intro a2 h2 hcontra
  have hx : s._api.map ApiServer.id = some a2.id := by
    rw [← hmap]
    rw [show ((s.start env).2)._api = some a2 from h2]
    rfl
  obtain ⟨a0, ha0, hid0⟩ := Option.map_eq_some'.mp hx
  exact hfresh a0 ha0 (hid0.trans hcontra)

/-- Witness for C8: a fresh server (no stored api) with a failing
start keeps `_api` absent. -/
theorem server_start_failure_preserves_api_ref_witness :
    ((Server.new.start startEnvFail).2).api.map ApiServer.id
      = Server.new.api.map ApiServer.id :=
  (server_start_failure_preserves_api_ref Server.new startEnvFail 7 rfl rfl
    (fun a ha => by simp [Server.new, Server.api] at ha)).1

/-- C6: when the wrapped handler throws synchronously, the safe wrapper
returns whatever state the `sendStatus(500)` attempt leaves — the
handler's exception never escapes (the wrapper is total), a failure of
the send attempt itself is discarded, and with the ordinary `sendStatus`
the response carries status 500. -/
theorem safe_handler_catches_throw (self thisArgs : JsThis) (argCount : Nat)
    (h : SyncHandler) (req : ApiRequest) (resp resp2 : ApiResponse)
    (e : Err)
    (hthrow : h (if argCount < 2 then self else thisArgs) req resp
      = (resp2, some e)) :
    (∀ impl : SendStatusImpl,
      getRequestHandlerSafe impl self (some h) argCount thisArgs req resp
        = (impl 500 resp2).1) ∧
    (getRequestHandlerSafe sendStatusM self (some h) argCount thisArgs req
        resp).statusCode = some 500 := by
  constructor
  · intro impl
    unfold getRequestHandlerSafe
    dsimp only
    rw [hthrow]
  · unfold getRequestHandlerSafe
    dsimp only
    rw [hthrow]
    rfl

/-- Witness for C6: a handler that always throws yields a 500. -/
theorem safe_handler_catches_throw_witness :
    (getRequestHandlerSafe sendStatusM (JsThis.obj 0)
      (some throwingHandler) 1 JsThis.undef sampleReq
      freshResponse).statusCode = some 500 :=
  (safe_handler_catches_throw (JsThis.obj 0) JsThis.undef 1 throwingHandler
    sampleReq freshResponse freshResponse 4 rfl).2

/-- C10: the safe wrapper binds `this` to the `ApiServer` itself only
when `thisArgs` is omitted at the call site (`arguments.length < 2`);
whenever it is passed — including an explicit `undefined`, since
`thisArgs` ranges over all of `JsThis` — the handler observes exactly
the passed value. -/
theorem safe_handler_thisArgs_defaulting (impl : SendStatusImpl)
    (self thisArgs : JsThis) (argCount : Nat) (req : ApiRequest)
    (resp : ApiResponse) (record : JsThis → ApiResponse) :
    (argCount < 2 →
      getRequestHandlerSafe impl self
        (some (fun t _ _ => (record t, none))) argCount thisArgs req resp
        = record self) ∧
    (2 ≤ argCount →
      getRequestHandlerSafe impl self
        (some (fun t _ _ => (record t, none))) argCount thisArgs req resp
        = record thisArgs) := by
  constructor
  · intro hlt
    unfold getRequestHandlerSafe
    dsimp only
    rw [if_pos hlt]
  · intro hge
    unfold getRequestHandlerSafe
    dsimp only
    rw [if_neg (Nat.not_lt.mpr hge)]

/-- Witness for C10: with two arguments an explicit `undefined` is kept;
with one argument the wrapper defaults to the server object. -/
theorem safe_handler_thisArgs_defaulting_witness :
    getRequestHandlerSafe sendStatusM (JsThis.obj 1)
      (some (fun t _ _ => (recordResp t, none))) 2 JsThis.undef sampleReq
      freshResponse = recordResp JsThis.undef ∧
    getRequestHandlerSafe sendStatusM (JsThis.obj 1)
      (some (fun t _ _ => (recordResp t, none))) 1 JsThis.undef sampleReq
      freshResponse = recordResp (JsThis.obj 1) :=
  ⟨(safe_handler_thisArgs_defaulting sendStatusM (JsThis.obj 1)
      JsThis.undef 2 sampleReq freshResponse recordResp).2 (by decide),
   (safe_handler_thisArgs_defaulting sendStatusM (JsThis.obj 1)
      JsThis.undef 1 sampleReq freshResponse recordResp).1 (by decide)⟩

/-- C1 (amended): the registered `GET /` handler sends status 200 with
content type `application/json; charset=utf-8` and a body serializing
the envelope with `code = 0` and the `data` object — but with NO `msg`
key at all: `msg` is `undefined` and `JSON.stringify` omits it. -/
theorem rootRoute_envelope_amended (self : JsThis) (req : ApiRequest) :
    (registeredRootHandler self req freshResponse).statusCode
      = some 200 ∧
    (registeredRootHandler self req freshResponse).contentTypeHeader
      = some "application/json; charset=utf-8" ∧
    (registeredRootHandler self req freshResponse).body
      = some ((jsonStringify (rootEnvelopeNoMsg req)).getD "undefined") :=
  ⟨rfl, rfl, rfl⟩

/-- C1 counterexample: at a concrete request the body contains no `msg`
key, so it is NOT the claimed serialization with `"msg":null`. -/
theorem rootRoute_msg_key_absent :
    (registeredRootHandler (JsThis.obj 0) sampleReq freshResponse).body
      = some "\x7b\"code\":0,\"data\":\x7b\"now\":\"2026-10-12T00:00:00.000Z\",\"you\":\"127.0.0.1:12345\"\x7d\x7d" ∧
    (registeredRootHandler (JsThis.obj 0) sampleReq freshResponse).body
      ≠ some "\x7b\"code\":0,\"msg\":null,\"data\":\x7b\"now\":\"2026-10-12T00:00:00.000Z\",\"you\":\"127.0.0.1:12345\"\x7d\x7d" := by
  constructor
  · decide
  · decide
